import Mathlib

/-!
Shallow embedding of the WoS backlog scoring core:
- Story.computed_status (src/backlog/models.py)
- _calculate_story_score and report_view result/classification (src/backlog/views/report.py)
- _normalize_rank and relative_report_view classification (src/backlog/views/relative_report.py)
- StoryValueFactorScore.clean / StoryCostFactorScore.clean (src/backlog/models.py)

Python strings are modelled as lists of characters; Django DateTimeField
values as Option Nat (only presence matters); numeric answer scores as Int
(Django IntegerField); Python float arithmetic in the scoring code as exact
rationals.
-/

namespace WoS

/-- The whitespace characters stripped by Python str.strip() (ASCII range). -/
def isPySpace (c : Char) : Bool :=
  c = ' ' || c = '\t' || c = '\n' || c = '\r' || c = '\x0b' || c = '\x0c'

/-- Python str.strip(): drop whitespace from both ends. -/
def pyStrip (s : List Char) : List Char :=
  ((s.dropWhile isPySpace).reverse.dropWhile isPySpace).reverse

/-- Python bool(x and x.strip()) for a string x: non-empty and non-empty after strip. -/
def hasText (s : List Char) : Bool :=
  !s.isEmpty && !(pyStrip s).isEmpty

/-- A ValueFactorAnswer row: its owning factor and integer score
(src/backlog/models.py, ValueFactorAnswer). -/
structure ValueFactorAnswer where
  valuefactor_id : Nat
  score : Int
deriving DecidableEq

/-- A StoryValueFactorScore row for one story: factor, optional answer
(None = undefined), optional relative rank (src/backlog/models.py). -/
structure StoryValueFactorScore where
  valuefactor_id : Nat
  answer : Option ValueFactorAnswer
  relative_rank : Option Int
deriving DecidableEq

/-- A CostFactorAnswer row (src/backlog/models.py, CostFactorAnswer). -/
structure CostFactorAnswer where
  costfactor_id : Nat
  score : Int
deriving DecidableEq

/-- A StoryCostFactorScore row for one story (src/backlog/models.py). -/
structure StoryCostFactorScore where
  costfactor_id : Nat
  answer : Option CostFactorAnswer
  relative_rank : Option Int
deriving DecidableEq

/-- The Story fields consumed by computed_status (src/backlog/models.py, Story). -/
structure Story where
  title : List Char
  goal : List Char
  workitems : List Char
  blocked : List Char
  planned : Option Nat
  started : Option Nat
  finished : Option Nat
deriving DecidableEq

/-- story_vf_ids: ids of value factors whose score for this story has a
non-null answer, the set comprehension over self.scores.all() filtered on
s.answer_id is not None. -/
def storyDefinedValueIds (scores : List StoryValueFactorScore) : Finset Nat :=
  ((scores.filter (fun sc => sc.answer.isSome)).map (fun sc => sc.valuefactor_id)).toFinset

/-- story_cf_ids: ids of cost factors whose score for this story has a
non-null answer. -/
def storyDefinedCostIds (cost_scores : List StoryCostFactorScore) : Finset Nat :=
  ((cost_scores.filter (fun sc => sc.answer.isSome)).map (fun sc => sc.costfactor_id)).toFinset

/-- Story.computed_status (src/backlog/models.py lines 112-162): strict
precedence blocked > done > started > planned > ready > idea. -/
def computed_status (s : Story) (scores : List StoryValueFactorScore)
    (cost_scores : List StoryCostFactorScore)
    (all_vf_ids all_cf_ids : Finset Nat) : String :=
  if !s.blocked.isEmpty && !(pyStrip s.blocked).isEmpty then "blocked"
  else if s.finished.isSome then "done"
  else if s.started.isSome then "started"
  else if s.planned.isSome then "planned"
  else if !(hasText s.title && hasText s.goal && hasText s.workitems) then "idea"
  else if !(decide (all_vf_ids ⊆ storyDefinedValueIds scores) &&
            decide (all_cf_ids ⊆ storyDefinedCostIds cost_scores)) then "idea"
  else "ready"

/-- Outcome of a Django model clean() call: normal return or a raised
ValidationError with its message. -/
inductive CleanOutcome where
  | ok : CleanOutcome
  | validationError : String → CleanOutcome
deriving DecidableEq

/-- StoryValueFactorScore.clean (src/backlog/models.py lines 305-308):
raise ValidationError iff the answer is present and belongs to a different
value factor. -/
def StoryValueFactorScore.clean (sc : StoryValueFactorScore) : CleanOutcome :=
  match sc.answer with
  | some a =>
      if a.valuefactor_id ≠ sc.valuefactor_id then
        CleanOutcome.validationError "Answer must belong to the selected ValueFactor."
      else CleanOutcome.ok
  | none => CleanOutcome.ok

/-- StoryCostFactorScore.clean (src/backlog/models.py lines 407-410). -/
def StoryCostFactorScore.clean (sc : StoryCostFactorScore) : CleanOutcome :=
  match sc.answer with
  | some a =>
      if a.costfactor_id ≠ sc.costfactor_id then
        CleanOutcome.validationError "Answer must belong to the selected CostFactor."
      else CleanOutcome.ok
  | none => CleanOutcome.ok

/-- vf_map (report.py): dict of valuefactor_id to answer.score over scores with
a non-null answer; a Python dict comprehension keeps the last entry per key. -/
def vf_map (scores : List StoryValueFactorScore) : Nat → Option Int := fun fid =>
  ((scores.filter (fun sc => sc.answer.isSome && sc.valuefactor_id == fid)).getLast?).bind
    (fun sc => sc.answer.map (fun a => a.score))

/-- cf_map (report.py): dict of costfactor_id to answer.score over cost scores
with a non-null answer. -/
def cf_map (cost_scores : List StoryCostFactorScore) : Nat → Option Int := fun fid =>
  ((cost_scores.filter (fun sc => sc.answer.isSome && sc.costfactor_id == fid)).getLast?).bind
    (fun sc => sc.answer.map (fun a => a.score))

/-- vals: the defined scores of a section's factors, in section order
([vf_map[vf.id] for vf in vs.valuefactors.all() if vf.id in vf_map]).
A section is the list of its factors' ids. -/
def sectionVals (m : Nat → Option Int) (sec : List Nat) : List Int :=
  sec.filterMap m

/-- A section's average over its defined scores: sum(vals)/len(vals) when vals
is non-empty, absent otherwise (report.py: sections with no defined score get
avg None). -/
def sectionAvg (m : Nat → Option Int) (sec : List Nat) : Option ℚ :=
  if (sectionVals m sec).isEmpty then none
  else some (((sectionVals m sec).map (fun i => (i : ℚ))).sum / ((sectionVals m sec).length : ℚ))

/-- The list of defined per-section averages, absent sections skipped. -/
def sectionAvgs (m : Nat → Option Int) (sections : List (List Nat)) : List ℚ :=
  sections.filterMap (sectionAvg m)

/-- total_value / total_cost (_calculate_story_score):
sum(value_section_avgs) if value_section_avgs else 0. -/
def totalOf (m : Nat → Option Int) (sections : List (List Nat)) : ℚ :=
  if (sectionAvgs m sections).isEmpty then 0 else (sectionAvgs m sections).sum

/-- Round-half-to-even to the nearest integer, as Python round() does. -/
def rintHalfEven (q : ℚ) : Int :=
  if q - (Int.floor q : ℚ) = 1 / 2 then
    (if Int.floor q % 2 = 0 then Int.floor q else Int.floor q + 1)
  else round q

/-- Python round(x, 2), modelled exactly over the rationals. -/
def pyRound2 (q : ℚ) : ℚ :=
  (rintHalfEven (q * 100) : ℚ) / 100

/-- Result record of _calculate_story_score. -/
structure ScoreResult where
  value : ℚ
  cost : ℚ
  result : ℚ
deriving DecidableEq

/-- Model of _calculate_story_score (src/backlog/views/report.py lines 242-288): section
averages summed per side, then round(value/cost, 2) when cost is positive, else
the zero-cost fallback (value if positive, else 0). Sections are given as lists
of their factors' ids. -/
def calculate_story_score (scores : List StoryValueFactorScore)
    (cost_scores : List StoryCostFactorScore)
    (value_sections cost_sections : List (List Nat)) : ScoreResult :=
  let total_value := totalOf (vf_map scores) value_sections
  let total_cost := totalOf (cf_map cost_scores) cost_sections
  { value := total_value
    cost := total_cost
    result :=
      if 0 < total_cost then pyRound2 (total_value / total_cost)
      else if 0 < total_value then total_value else 0 }

/-- The per-row result of report_view (report.py lines 168-194): value_sum and
cost_sum are the sums of the defined section averages; result is
value_sum / cost_sum when cost_sum is truthy (non-zero), None otherwise. -/
def report_row_result (scores : List StoryValueFactorScore)
    (cost_scores : List StoryCostFactorScore)
    (value_sections cost_sections : List (List Nat)) : Option ℚ :=
  let value_sum := (sectionAvgs (vf_map scores) value_sections).sum
  let cost_sum := (sectionAvgs (cf_map cost_scores) cost_sections).sum
  if cost_sum ≠ 0 then some (value_sum / cost_sum) else none

/-- result_class (report.py lines 196-200 and relative_report.py lines
434-438, identical code): neutral when result is None, good when at least 1,
bad otherwise. -/
def result_class (result : Option ℚ) : String :=
  match result with
  | none => "neutral"
  | some r => if r ≥ 1 then "good" else "bad"

/-- Model of _normalize_rank (src/backlog/views/relative_report.py lines 89-117). -/
def normalize_rank (rank ranked_count : Int) (min_score max_score : ℚ)
    (invert : Bool) : ℚ :=
  if ranked_count ≤ 1 then
    (if invert then min_score else max_score)
  else
    (if invert then
      min_score + (((rank : ℚ) - 1) / ((ranked_count : ℚ) - 1)) * (max_score - min_score)
    else
      max_score - (((rank : ℚ) - 1) / ((ranked_count : ℚ) - 1)) * (max_score - min_score))

/-- Restatement of the spec's aggregation rule for claim C3: the total is the
sum, over exactly the sections having at least one defined score, of the
average of that section's defined scores. Written from the spec's words, to be
compared with totalOf, which is written from the code. -/
def sumOfSectionAverages (m : Nat → Option Int) (sections : List (List Nat)) : ℚ :=
  ((sections.filter (fun sec => !(sectionVals m sec).isEmpty)).map
    (fun sec => ((sectionVals m sec).map (fun i => (i : ℚ))).sum /
      ((sectionVals m sec).length : ℚ))).sum

/-- A story whose blocked field has real text. -/
def stBlocked : Story :=
  { title := ['t']
    goal := ['g']
    workitems := ['w']
    blocked := ['x']
    planned := none
    started := none
    finished := none }

/-- A story whose blocked field is whitespace only. -/
def stWhite : Story :=
  { title := ['t']
    goal := ['g']
    workitems := ['w']
    blocked := [' ', '\t']
    planned := none
    started := none
    finished := none }

/-- A story with all three text fields filled and no lifecycle timestamps. -/
def stTexts : Story :=
  { title := ['t']
    goal := ['g']
    workitems := ['w']
    blocked := []
    planned := none
    started := none
    finished := none }

/-- A story with an empty goal and no lifecycle timestamps. -/
def stNoGoal : Story :=
  { title := ['t']
    goal := []
    workitems := ['w']
    blocked := []
    planned := none
    started := none
    finished := none }

/-- A value score record for factor 1 whose answer is null (undefined). -/
def svNull : StoryValueFactorScore :=
  { valuefactor_id := 1, answer := none, relative_rank := none }

/-- A cost score record for factor 1 whose answer is null (undefined). -/
def scNull : StoryCostFactorScore :=
  { costfactor_id := 1, answer := none, relative_rank := none }

/-- A score giving value factor 1 the score 7. -/
def c2Scores : List StoryValueFactorScore :=
  [ { valuefactor_id := 1, answer := some { valuefactor_id := 1, score := 7 },
      relative_rank := none } ]

/-- A score giving value factor 1 the score 1. -/
def c2bValue : List StoryValueFactorScore :=
  [ { valuefactor_id := 1, answer := some { valuefactor_id := 1, score := 1 },
      relative_rank := none } ]

/-- A score giving cost factor 1 the score 3. -/
def c2bCost : List StoryCostFactorScore :=
  [ { costfactor_id := 1, answer := some { costfactor_id := 1, score := 3 },
      relative_rank := none } ]

/-- Scores 4 and 8 on value factors 1 and 2, and 10 on value factor 3. -/
def c3Scores : List StoryValueFactorScore :=
  [ { valuefactor_id := 1, answer := some { valuefactor_id := 1, score := 4 },
      relative_rank := none },
    { valuefactor_id := 2, answer := some { valuefactor_id := 2, score := 8 },
      relative_rank := none },
    { valuefactor_id := 3, answer := some { valuefactor_id := 3, score := 10 },
      relative_rank := none } ]

theorem pyStrip_nil : pyStrip [] = [] := rfl

theorem ne_nil_of_pyStrip_ne_nil {l : List Char} (h : pyStrip l ≠ []) : l ≠ [] := by
  intro hl
  exact h (hl ▸ pyStrip_nil)

theorem isEmpty_false_of_ne_nil {l : List Char} (h : l ≠ []) : l.isEmpty = false := by
  cases l with
  | nil => exact absurd rfl h
  | cons a t => rfl

/-- C1: the derived status is always one of the six labels, chosen by strict
first-match precedence blocked over done over started over planned over
ready/idea, even when several lifecycle fields are set at once. -/
theorem computed_status_precedence (s : Story) (scores : List StoryValueFactorScore)
    (cost_scores : List StoryCostFactorScore) (all_vf_ids all_cf_ids : Finset Nat) :
    computed_status s scores cost_scores all_vf_ids all_cf_ids ∈
      (["blocked", "done", "started", "planned", "ready", "idea"] : List String) ∧
    (pyStrip s.blocked ≠ [] →
      computed_status s scores cost_scores all_vf_ids all_cf_ids = "blocked") ∧
    (pyStrip s.blocked = [] → s.finished.isSome →
      computed_status s scores cost_scores all_vf_ids all_cf_ids = "done") ∧
    (pyStrip s.blocked = [] → s.finished = none → s.started.isSome →
      computed_status s scores cost_scores all_vf_ids all_cf_ids = "started") ∧
    (pyStrip s.blocked = [] → s.finished = none → s.started = none → s.planned.isSome →
      computed_status s scores cost_scores all_vf_ids all_cf_ids = "planned") ∧
    (pyStrip s.blocked = [] → s.finished = none → s.started = none → s.planned = none →
      computed_status s scores cost_scores all_vf_ids all_cf_ids = "ready" ∨
      computed_status s scores cost_scores all_vf_ids all_cf_ids = "idea") := by
  refine ⟨?_, ?_, ?_, ?_, ?_, ?_⟩
  · simp only [computed_status]
    split_ifs <;> simp
  · intro h
    have hb := ne_nil_of_pyStrip_ne_nil h
    simp [computed_status, isEmpty_false_of_ne_nil hb, isEmpty_false_of_ne_nil h]
  · intro h hf
    simp [computed_status, h, hf]
  · intro h hf hs
    simp [computed_status, h, hf, hs]
  · intro h hf hs hp
    simp [computed_status, h, hf, hs, hp]
  · intro h hf hs hp
    simp only [computed_status, h, hf, hs, hp]
    split_ifs <;> simp_all

/-- Witness for C1: a story whose blocked field holds text is classified
blocked. -/
theorem c1_witness : computed_status stBlocked [] [] ∅ ∅ = "blocked" :=
  (computed_status_precedence stBlocked [] [] ∅ ∅).2.1 (by decide)

/-- C10: a story whose blocked field is empty after trimming (in particular a
whitespace-only blocked field) is never classified blocked; evaluation
proceeds to the later precedence rules. -/
theorem c10_not_blocked (s : Story) (scores : List StoryValueFactorScore)
    (cost_scores : List StoryCostFactorScore) (all_vf_ids all_cf_ids : Finset Nat)
    (h : pyStrip s.blocked = []) :
    computed_status s scores cost_scores all_vf_ids all_cf_ids ≠ "blocked" := by
  simp only [computed_status, h]
  split_ifs <;> simp_all

/-- Witness for C10: a story with a whitespace-only blocked field is not
blocked. -/
theorem c10_witness : computed_status stWhite [] [] ∅ ∅ ≠ "blocked" :=
  c10_not_blocked stWhite [] [] ∅ ∅ (by decide)

/-- C7: with no blocked text, no lifecycle timestamps, zero configured value
and cost factors, and all three text fields non-empty after trimming, the
derived status is ready. -/
theorem c7_ready (s : Story) (scores : List StoryValueFactorScore)
    (cost_scores : List StoryCostFactorScore)
    (hb : pyStrip s.blocked = []) (hf : s.finished = none) (hst : s.started = none)
    (hp : s.planned = none) (ht : pyStrip s.title ≠ []) (hg : pyStrip s.goal ≠ [])
    (hw : pyStrip s.workitems ≠ []) :
    computed_status s scores cost_scores ∅ ∅ = "ready" := by
  have h1 : hasText s.title = true := by
    simp [hasText, isEmpty_false_of_ne_nil (ne_nil_of_pyStrip_ne_nil ht),
      isEmpty_false_of_ne_nil ht]
  have h2 : hasText s.goal = true := by
    simp [hasText, isEmpty_false_of_ne_nil (ne_nil_of_pyStrip_ne_nil hg),
      isEmpty_false_of_ne_nil hg]
  have h3 : hasText s.workitems = true := by
    simp [hasText, isEmpty_false_of_ne_nil (ne_nil_of_pyStrip_ne_nil hw),
      isEmpty_false_of_ne_nil hw]
  simp [computed_status, hb, hf, hst, hp, h1, h2, h3]

/-- Witness for C7: a story with the three text fields filled and no factors
configured is ready. -/
theorem c7_witness : computed_status stTexts [] [] ∅ ∅ = "ready" :=
  c7_ready stTexts [] [] (by decide) rfl rfl rfl (by decide) (by decide) (by decide)

/-- C8: with no blocked text and no lifecycle timestamps, if any one of title,
goal or workitems is empty after trimming the derived status is idea,
regardless of which factor scores are defined. -/
theorem c8_idea (s : Story) (scores : List StoryValueFactorScore)
    (cost_scores : List StoryCostFactorScore) (all_vf_ids all_cf_ids : Finset Nat)
    (hb : pyStrip s.blocked = []) (hf : s.finished = none) (hst : s.started = none)
    (hp : s.planned = none)
    (h : pyStrip s.title = [] ∨ pyStrip s.goal = [] ∨ pyStrip s.workitems = []) :
    computed_status s scores cost_scores all_vf_ids all_cf_ids = "idea" := by
  rcases h with h | h | h <;>
    simp [computed_status, hb, hf, hst, hp, hasText, h]

/-- Witness for C8: a story with an empty goal is an idea even though its only
configured value factor has a defined score. -/
theorem c8_witness : computed_status stNoGoal c2Scores [] {1} ∅ = "idea" :=
  c8_idea stNoGoal c2Scores [] {1} ∅ (by decide) rfl rfl rfl (Or.inr (Or.inl (by decide)))

theorem storyDefinedValueIds_filter (scores : List StoryValueFactorScore) :
    storyDefinedValueIds (scores.filter (fun sc => sc.answer.isSome)) =
      storyDefinedValueIds scores := by
  simp [storyDefinedValueIds, List.filter_filter]

theorem storyDefinedCostIds_filter (cost_scores : List StoryCostFactorScore) :
    storyDefinedCostIds (cost_scores.filter (fun sc => sc.answer.isSome)) =
      storyDefinedCostIds cost_scores := by
  simp [storyDefinedCostIds, List.filter_filter]

/-- C5: a score record whose answer is null counts as not scored in the
readiness check: the status computation is unchanged when null-answer score
records (value and cost alike) are removed, and a story that is otherwise
eligible for ready comes out idea when any configured factor, a value factor
or a cost factor, has only null-answer score records. -/
theorem c5_null_answer (s : Story) (scores : List StoryValueFactorScore)
    (cost_scores : List StoryCostFactorScore) (all_vf_ids all_cf_ids : Finset Nat)
    (f : Nat)
    (hb : pyStrip s.blocked = []) (hf : s.finished = none) (hst : s.started = none)
    (hp : s.planned = none)
    (hfac : (f ∈ all_vf_ids ∧ ∀ sc ∈ scores, sc.valuefactor_id = f → sc.answer = none) ∨
            (f ∈ all_cf_ids ∧ ∀ sc ∈ cost_scores, sc.costfactor_id = f → sc.answer = none)) :
    computed_status s scores cost_scores all_vf_ids all_cf_ids = "idea" ∧
    computed_status s scores cost_scores all_vf_ids all_cf_ids =
      computed_status s (scores.filter (fun sc => sc.answer.isSome))
        (cost_scores.filter (fun sc => sc.answer.isSome)) all_vf_ids all_cf_ids := by
  constructor
  · rcases hfac with ⟨hmem, hnull⟩ | ⟨hmem, hnull⟩
    · have hfmem : f ∉ storyDefinedValueIds scores := by
        simp only [storyDefinedValueIds, List.mem_toFinset, List.mem_map, List.mem_filter]
        rintro ⟨sc, ⟨hsc, hsome⟩, hid⟩
        rw [hnull sc hsc hid] at hsome
        simp at hsome
      have hnsub : ¬ all_vf_ids ⊆ storyDefinedValueIds scores := fun hsub => hfmem (hsub hmem)
      by_cases htext : (hasText s.title && hasText s.goal && hasText s.workitems) = true
      · simp [computed_status, hb, hf, hst, hp, htext, hnsub]
      · simp [computed_status, hb, hf, hst, hp, htext]
    · have hfmem : f ∉ storyDefinedCostIds cost_scores := by
        simp only [storyDefinedCostIds, List.mem_toFinset, List.mem_map, List.mem_filter]
        rintro ⟨sc, ⟨hsc, hsome⟩, hid⟩
        rw [hnull sc hsc hid] at hsome
        simp at hsome
      have hnsub : ¬ all_cf_ids ⊆ storyDefinedCostIds cost_scores := fun hsub => hfmem (hsub hmem)
      by_cases htext : (hasText s.title && hasText s.goal && hasText s.workitems) = true
      · simp [computed_status, hb, hf, hst, hp, htext, hnsub]
      · simp [computed_status, hb, hf, hst, hp, htext]
  · simp only [computed_status, storyDefinedValueIds_filter, storyDefinedCostIds_filter]

/-- Witness for C5: a story with filled text fields is an idea, not ready,
when its single configured value factor has a null-answer score record, and
likewise when its single configured cost factor has a null-answer cost score
record. -/
theorem c5_witness :
    computed_status stTexts [svNull] [] {1} ∅ = "idea" ∧
    computed_status stTexts [] [scNull] ∅ {1} = "idea" :=
  ⟨(c5_null_answer stTexts [svNull] [] {1} ∅ 1 (by decide) rfl rfl rfl
      (Or.inl ⟨by decide, by decide⟩)).1,
   (c5_null_answer stTexts [] [scNull] ∅ {1} 1 (by decide) rfl rfl rfl
      (Or.inr ⟨by decide, by decide⟩)).1⟩

/-- C9: validating a story-factor score raises a validation error exactly when
the score carries a non-null answer belonging to a different factor than the
one the score is recorded against; a null answer, or a same-factor answer,
validates without error. Stated for both the value-side and the cost-side
clean methods. -/
theorem c9_clean (sv : StoryValueFactorScore) (sc : StoryCostFactorScore) :
    (StoryValueFactorScore.clean sv ≠ CleanOutcome.ok ↔
      ∃ a, sv.answer = some a ∧ a.valuefactor_id ≠ sv.valuefactor_id) ∧
    (StoryCostFactorScore.clean sc ≠ CleanOutcome.ok ↔
      ∃ a, sc.answer = some a ∧ a.costfactor_id ≠ sc.costfactor_id) := by
  constructor
  · cases hsv : sv.answer with
    | none => simp [StoryValueFactorScore.clean, hsv]
    | some a =>
      by_cases hid : a.valuefactor_id ≠ sv.valuefactor_id
      · simp [StoryValueFactorScore.clean, hsv, hid]
      · simp [StoryValueFactorScore.clean, hsv, hid]
  · cases hsc : sc.answer with
    | none => simp [StoryCostFactorScore.clean, hsc]
    | some a =>
      by_cases hid : a.costfactor_id ≠ sc.costfactor_id
      · simp [StoryCostFactorScore.clean, hsc, hid]
      · simp [StoryCostFactorScore.clean, hsc, hid]

/-- C6: the display classification is neutral exactly when the result is
undefined, good exactly when it is a number at least 1, and bad exactly when
it is a number below 1. -/
theorem c6_result_class (r : Option ℚ) :
    (result_class r = "neutral" ↔ r = none) ∧
    (result_class r = "good" ↔ ∃ q, r = some q ∧ 1 ≤ q) ∧
    (result_class r = "bad" ↔ ∃ q, r = some q ∧ q < 1) := by
  cases r with
  | none => simp [result_class]
  | some q =>
    by_cases h : q ≥ 1
    · simp [result_class, h, not_lt.mpr h]
    · simp [result_class, h, not_le.mp h, lt_of_not_le h]

/-- C4: relative-rank normalization gives the best score to a lone ranked item
and otherwise linearly interpolates between the answer bounds; with bounds 1
and 5 for a value factor, rank 1 of 1 gives 5, rank 1 of 3 gives 5, rank 2 of
3 gives 3, rank 3 of 3 gives 1. -/
theorem c4_normalize_rank (rank ranked_count : Int) (mn mx : ℚ) :
    (ranked_count ≤ 1 →
      normalize_rank rank ranked_count mn mx false = mx ∧
      normalize_rank rank ranked_count mn mx true = mn) ∧
    (1 < ranked_count →
      normalize_rank rank ranked_count mn mx false =
        mx - (((rank : ℚ) - 1) / ((ranked_count : ℚ) - 1)) * (mx - mn) ∧
      normalize_rank rank ranked_count mn mx true =
        mn + (((rank : ℚ) - 1) / ((ranked_count : ℚ) - 1)) * (mx - mn)) ∧
    normalize_rank 1 1 1 5 false = 5 ∧
    normalize_rank 1 3 1 5 false = 5 ∧
    normalize_rank 2 3 1 5 false = 3 ∧
    normalize_rank 3 3 1 5 false = 1 := by
  refine ⟨?_, ?_, ?_, ?_, ?_, ?_⟩
  · intro h
    constructor <;> simp [normalize_rank, h]
  · intro h
    constructor <;> simp [normalize_rank, not_le.mpr h]
  · simp only [normalize_rank]
    norm_num
  · simp only [normalize_rank]
    norm_num
  · simp only [normalize_rank]
    norm_num
  · simp only [normalize_rank]
    norm_num

/-- Witness for C4: the single ranked item gets the best score on both the
value side and the cost side. -/
theorem c4_witness :
    normalize_rank 1 1 1 5 false = 5 ∧ normalize_rank 1 1 1 5 true = 1 :=
  (c4_normalize_rank 1 1 1 5).1 (by decide)

theorem totalOf_eq_sum (m : Nat → Option Int) (sections : List (List Nat)) :
    totalOf m sections = (sectionAvgs m sections).sum := by
  unfold totalOf
  split_ifs with h
  · cases hE : sectionAvgs m sections with
    | nil => simp
    | cons a t => rw [hE] at h; simp at h
  · rfl

theorem sectionAvgs_sum_eq (m : Nat → Option Int) (sections : List (List Nat)) :
    (sectionAvgs m sections).sum = sumOfSectionAverages m sections := by
  induction sections with
  | nil => rfl
  | cons sec rest ih =>
    simp only [sectionAvgs, sumOfSectionAverages, List.filterMap_cons, List.filter_cons] at *
    by_cases h : (sectionVals m sec).isEmpty
    · simp [sectionAvg, h, ih]
    · simp [sectionAvg, h, ih]

/-- C3: the computed total equals the sum of per-section averages taken over
only the factors with a defined score, sections with no defined scores being
excluded from the sum; sections scored 4, 8 and 10 total 6 + 10 = 16 and not
the overall average of the three raw scores. -/
theorem c3_total_is_sum_of_section_averages (m : Nat → Option Int)
    (sections : List (List Nat)) :
    totalOf m sections = sumOfSectionAverages m sections ∧
    totalOf (vf_map c3Scores) [[1, 2], [3]] = 6 + 10 ∧
    totalOf (vf_map c3Scores) [[1, 2], [3]] ≠ (4 + 8 + 10) / 3 := by
  refine ⟨(totalOf_eq_sum m sections).trans (sectionAvgs_sum_eq m sections), ?_, ?_⟩
  all_goals
    have h1 : sectionVals (vf_map c3Scores) [1, 2] = [4, 8] := by decide
    have h2 : sectionVals (vf_map c3Scores) [3] = [10] := by decide
    simp [totalOf, sectionAvgs, List.filterMap_cons, sectionAvg, h1, h2]
    norm_num

/-- C2 counterexample: with one value section scored 7 and no cost scores, the
score helper returns result 7 but the classifying report path computes result
None for the zero cost and classifies it neutral, not good; and with value 1
and cost 3 the helper result is the rounded ratio, not the exact ratio the
claim states. -/
theorem c2_counterexample :
    (calculate_story_score c2Scores [] [[1]] []).cost = 0 ∧
    (calculate_story_score c2Scores [] [[1]] []).value = 7 ∧
    (calculate_story_score c2Scores [] [[1]] []).result = 7 ∧
    result_class (report_row_result c2Scores [] [[1]] []) = "neutral" ∧
    result_class (report_row_result c2Scores [] [[1]] []) ≠ "good" ∧
    0 < (calculate_story_score c2bValue c2bCost [[1]] [[1]]).cost ∧
    (calculate_story_score c2bValue c2bCost [[1]] [[1]]).result ≠
      (calculate_story_score c2bValue c2bCost [[1]] [[1]]).value /
        (calculate_story_score c2bValue c2bCost [[1]] [[1]]).cost := by
  have hv7 : totalOf (vf_map c2Scores) [[1]] = 7 := by
    have h1 : sectionVals (vf_map c2Scores) [1] = [7] := by decide
    simp [totalOf, sectionAvgs, List.filterMap_cons, sectionAvg, h1]
  have hv1 : totalOf (vf_map c2bValue) [[1]] = 1 := by
    have h1 : sectionVals (vf_map c2bValue) [1] = [1] := by decide
    simp [totalOf, sectionAvgs, List.filterMap_cons, sectionAvg, h1]
  have hc3 : totalOf (cf_map c2bCost) [[1]] = 3 := by
    have h1 : sectionVals (cf_map c2bCost) [1] = [3] := by decide
    simp [totalOf, sectionAvgs, List.filterMap_cons, sectionAvg, h1]
  have hc0 : totalOf (cf_map []) [] = 0 := by simp [totalOf, sectionAvgs]
  have hsum0 : (sectionAvgs (cf_map ([] : List StoryCostFactorScore)) []).sum = 0 := by
    simp [sectionAvgs]
  have hfloor : Int.floor ((1 : ℚ) / 3 * 100) = 33 := by norm_num
  refine ⟨?_, ?_, ?_, ?_, ?_, ?_, ?_⟩
  · simp only [calculate_story_score]
    exact hc0
  · simp only [calculate_story_score]
    exact hv7
  · simp only [calculate_story_score, hv7, hc0]
    norm_num
  · simp [report_row_result, hsum0, result_class]
  · simp [report_row_result, hsum0, result_class]
  · simp only [calculate_story_score, hc3]
    norm_num
  · simp only [calculate_story_score, hv1, hc3]
    norm_num [pyRound2, rintHalfEven, hfloor, round_eq]

/-- C2 as amended: the score helper returns the ratio rounded to two decimal
places when the total cost is positive, and the zero-cost fallback (the total
value when positive, else 0) otherwise, never raising; the classifying report
path computes result None when the summed cost-section averages are zero and
classifies it neutral. -/
theorem c2_zero_cost_fallback (scores : List StoryValueFactorScore)
    (cost_scores : List StoryCostFactorScore)
    (value_sections cost_sections : List (List Nat)) :
    (0 < (calculate_story_score scores cost_scores value_sections cost_sections).cost →
      (calculate_story_score scores cost_scores value_sections cost_sections).result =
        pyRound2 ((calculate_story_score scores cost_scores value_sections cost_sections).value /
          (calculate_story_score scores cost_scores value_sections cost_sections).cost)) ∧
    (¬ 0 < (calculate_story_score scores cost_scores value_sections cost_sections).cost →
      (calculate_story_score scores cost_scores value_sections cost_sections).result =
        if 0 < (calculate_story_score scores cost_scores value_sections cost_sections).value
        then (calculate_story_score scores cost_scores value_sections cost_sections).value
        else 0) ∧
    ((sectionAvgs (cf_map cost_scores) cost_sections).sum = 0 →
      result_class (report_row_result scores cost_scores value_sections cost_sections) =
        "neutral") := by
  refine ⟨?_, ?_, ?_⟩
  · intro h
    simp only [calculate_story_score] at h ⊢
    rw [if_pos h]
  · intro h
    simp only [calculate_story_score] at h ⊢
    rw [if_neg h]
  · intro h
    simp [report_row_result, h, result_class]

/-- Witness for the amended C2: with total cost 0 and total value 7 the helper
result is 7, and the report path classifies the story neutral. -/
theorem c2_witness :
    (calculate_story_score c2Scores [] [[1]] []).result = 7 ∧
    result_class (report_row_result c2Scores [] [[1]] []) = "neutral" := by
  have h := c2_zero_cost_fallback c2Scores [] [[1]] []
  have hv : totalOf (vf_map c2Scores) [[1]] = 7 := by
    have h1 : sectionVals (vf_map c2Scores) [1] = [7] := by decide
    simp [totalOf, sectionAvgs, List.filterMap_cons, sectionAvg, h1]
  have hcost : (calculate_story_score c2Scores [] [[1]] []).cost = 0 := by
    simp [calculate_story_score, totalOf, sectionAvgs]
  have hval : (calculate_story_score c2Scores [] [[1]] []).value = 7 := by
    simp only [calculate_story_score]
    exact hv
  refine ⟨?_, h.2.2 (by simp [sectionAvgs])⟩
  rw [h.2.1 (by rw [hcost]; exact lt_irrefl 0), hval]
  norm_num

end WoS
